import Mathlib

/-!
Shallow embedding of `src/src/app/pages/home/home.component.ts`
(`HomeComponent` of the mydayapp Angular todo application).

Correspondence with the specification's vocabulary:
  `todos`              = allTodos (the canonical list)
  `tempTodos`          = visibleTodos (the route-filtered view)
  `editMode`           = editModeActive
  `todoSelectedToEdit` = todoBeingEdited
  `currentUrl`         = currentRoute
  `addNewTodo`  = addTodo, `toggleCheck` = toggleCompletion,
  `selectTodoToEdit` = selectForEdit, `editTodo` = commitEdit,
  `pendingTodos` = countPending, `saveTodos` = persist.

The browser's local storage under the single key `"todos"` is modelled as
`Option (List Todo)` (`none` = no entry).  `Date.now()` is passed in as an
explicit `now : Nat` argument.  `input.value.trim()` — removal of leading
and trailing whitespace — is modelled by `jsTrim` below, a structurally
recursive rendering of JavaScript's `String.prototype.trim` over the
character list.  Each state-mutating method is a function from the component
state and the current stored value to the new state and the new stored
value; `setItem` overwrites, so a write ignores the previous stored value.

JavaScript object identity: `todoSelectedToEdit` in the source is a
reference to the very object held in `tempTodos`, so the in-place
assignment `this.todoSelectedToEdit.title = title` in `editTodo` is
observable through `tempTodos`.  The embedding renders that reference by
the todo's `id`: the title assignment rewrites the title of the entries of
`tempTodos` carrying the selected id (ids are creation timestamps and are
expected unique).
-/

/-- A todo record: `{ id: number, title: string, completed: boolean }`
(`id = Date.now()` at creation, a millisecond timestamp). -/
structure Todo where
  id : Nat
  title : String
  completed : Bool
deriving Repr, DecidableEq

/-- The mutable fields of `HomeComponent`.  `todoSelectedToEdit!: Todo`
uses a definite-assignment assertion in the source; before any selection it
is `undefined`, rendered here as `none`. -/
structure HomeState where
  todos : List Todo
  tempTodos : List Todo
  editMode : Bool
  todoSelectedToEdit : Option Todo
  currentUrl : String
deriving Repr, DecidableEq

/-- JavaScript's `String.prototype.trim`: drops whitespace characters from
both ends of the string. -/
def jsTrim (s : String) : String :=
  ⟨((s.toList.dropWhile Char.isWhitespace).reverse.dropWhile
      Char.isWhitespace).reverse⟩

/-- The value stored under the key `"todos"` in local storage. -/
def Store : Type := Option (List Todo)

instance : DecidableEq Store := by
  unfold Store; infer_instance

/-- `saveTodos()`: writes `todos` when the current url is `/completed`,
otherwise writes `tempTodos`.  Returns the new stored value. -/
def saveTodos (s : HomeState) : Store :=
  if s.currentUrl = "/completed" then some s.todos else some s.tempTodos

/-- `filterTodos()`: recomputes `tempTodos` from `todos` according to the
current url (`/completed` → completed only, `/pending` → pending only,
anything else → `todos` itself). -/
def filterTodos (s : HomeState) : HomeState :=
  if s.currentUrl = "/completed" then
    { s with tempTodos := s.todos.filter (fun t => t.completed) }
  else if s.currentUrl = "/pending" then
    { s with tempTodos := s.todos.filter (fun t => !t.completed) }
  else
    { s with tempTodos := s.todos }

/-- `ngOnInit()`: caches the router url, and when `getItem('todos')` is
truthy loads it into `todos` and calls `filterTodos()`.  A stored empty
array is truthy in JavaScript, hence `some ts` always loads. -/
def ngOnInit (url : String) (st : Store) : HomeState :=
  let s0 : HomeState :=
    { todos := [], tempTodos := [], editMode := false,
      todoSelectedToEdit := none, currentUrl := url }
  match st with
  | some ts => filterTodos { s0 with todos := ts }
  | none => s0

/-- `addNewTodo(event)`: builds `newTodo` from the trimmed input value and
`Date.now()`; on `Enter` unshifts it onto `tempTodos`; always calls
`saveTodos()` afterwards. -/
def addNewTodo (s : HomeState) (now : Nat) (rawText key : String) :
    HomeState × Store :=
  let title := jsTrim rawText
  let newTodo : Todo := { id := now, title := title, completed := false }
  let s' :=
    if key = "Enter" then { s with tempTodos := newTodo :: s.tempTodos }
    else s
  (s', saveTodos s')

/-- `toggleCheck(todo)`: maps over `tempTodos`, replacing each entry whose
id equals `todo.id` with a spread copy whose `completed` is negated; then
`saveTodos()`. -/
def toggleCheck (s : HomeState) (todo : Todo) : HomeState × Store :=
  let s' :=
    { s with tempTodos :=
        s.tempTodos.map (fun item =>
          if todo.id = item.id then { item with completed := !item.completed }
          else item) }
  (s', saveTodos s')

/-- `deleteTodo(Todo)`: filters entries with a different id out of
`tempTodos`, then assigns `todos := tempTodos`, then `saveTodos()`. -/
def deleteTodo (s : HomeState) (todo : Todo) : HomeState × Store :=
  let temp' := s.tempTodos.filter (fun item => item.id != todo.id)
  let s' := { s with tempTodos := temp', todos := temp' }
  (s', saveTodos s')

/-- `selectTodoToEdit(Todo)`: sets `editMode = true` and records the
selected todo.  No persistence. -/
def selectTodoToEdit (s : HomeState) (todo : Todo) : HomeState :=
  { s with editMode := true, todoSelectedToEdit := some todo }

/-- `editTodo(event)`: assigns the trimmed input value to
`todoSelectedToEdit.title` in place (visible through `tempTodos`, see the
module comment); on `Escape` sets `editMode = false` and returns without
saving; on `Enter` replaces the matching entry of `tempTodos` with a copy
of the selected todo and sets `editMode = false`, then saves; on any other
key just saves.  `none` models the runtime fault of dereferencing an
unassigned `todoSelectedToEdit`. -/
def editTodo (s : HomeState) (st : Store) (rawText key : String) :
    Option (HomeState × Store) :=
  match s.todoSelectedToEdit with
  | none => none
  | some sel =>
    let title := jsTrim rawText
    let sel' := { sel with title := title }
    let s1 :=
      { s with
        todoSelectedToEdit := some sel',
        tempTodos :=
          s.tempTodos.map (fun t =>
            if t.id = sel.id then { t with title := title } else t) }
    if key = "Escape" then
      some ({ s1 with editMode := false }, st)
    else if key = "Enter" then
      let s2 :=
        { s1 with
          tempTodos :=
            s1.tempTodos.map (fun t => if sel'.id = t.id then sel' else t),
          editMode := false }
      some (s2, saveTodos s2)
    else
      some (s1, saveTodos s1)

/-- `get pendingTodos`: the number of entries of `todos` that are not
completed. -/
def pendingTodos (s : HomeState) : Nat :=
  (s.todos.filter (fun t => !t.completed)).length

/-- `clearCompleted()`: on `/completed`, empties `tempTodos` and keeps only
the pending entries of `todos`; otherwise keeps only the pending entries of
`tempTodos` in both lists.  Saves in either branch. -/
def clearCompleted (s : HomeState) : HomeState × Store :=
  if s.currentUrl = "/completed" then
    let s' :=
      { s with tempTodos := [],
               todos := s.todos.filter (fun t => t.completed = false) }
    (s', saveTodos s')
  else
    let newTodos := s.tempTodos.filter (fun t => t.completed = false)
    let s' := { s with todos := newTodos, tempTodos := newTodos }
    (s', saveTodos s')

/-! ## Claim theorems -/

/-- C4: every `addNewTodo` call with trigger key `"Enter"` grows
`tempTodos` (visibleTodos) by exactly one, placing the new todo — title
`trim(rawText)`, `completed = false` — at index 0; in particular adding
`"buy milk"` to an empty list yields exactly that todo at index 0. -/
theorem addNewTodo_enter_prepends (s : HomeState) (now : Nat) (raw : String) :
    ((addNewTodo s now raw "Enter").1.tempTodos.length
        = s.tempTodos.length + 1
      ∧ (addNewTodo s now raw "Enter").1.tempTodos.head?
        = some { id := now, title := jsTrim raw, completed := false })
    ∧ (addNewTodo
        { todos := [], tempTodos := [], editMode := false,
          todoSelectedToEdit := none, currentUrl := "/" }
        7 "buy milk" "Enter").1.tempTodos
      = [{ id := 7, title := "buy milk", completed := false }] := by
  refine ⟨⟨?_, ?_⟩, ?_⟩
  · simp [addNewTodo]
  · simp [addNewTodo]
  · decide

/-- C10: `addNewTodo` performs no non-emptiness validation: when the raw
text trims to `""`, a todo with title `""` and `completed = false` is still
inserted at the front of `tempTodos`, and on any route other than
`/completed` the stored value after the call is that new list, empty-titled
todo included. -/
theorem addNewTodo_empty_title_inserted (s : HomeState) (now : Nat)
    (raw : String) (h : jsTrim raw = "") :
    (addNewTodo s now raw "Enter").1.tempTodos
      = { id := now, title := "", completed := false } :: s.tempTodos
    ∧ (s.currentUrl ≠ "/completed" →
        (addNewTodo s now raw "Enter").2
          = some ({ id := now, title := "", completed := false }
              :: s.tempTodos)) := by
  constructor
  · simp [addNewTodo, h]
  · intro hu
    simp [addNewTodo, saveTodos, h, hu]

/-- C10 witness: the rule applied to the literal empty input on the default
route. -/
theorem addNewTodo_empty_title_inserted_witness :
    (addNewTodo
        { todos := [], tempTodos := [], editMode := false,
          todoSelectedToEdit := none, currentUrl := "/" } 3 "" "Enter").1.tempTodos
      = [{ id := 3, title := "", completed := false }]
    ∧ (addNewTodo
        { todos := [], tempTodos := [], editMode := false,
          todoSelectedToEdit := none, currentUrl := "/" } 3 "" "Enter").2
      = some [{ id := 3, title := "", completed := false }] := by
  have h := addNewTodo_empty_title_inserted
    { todos := [], tempTodos := [], editMode := false,
      todoSelectedToEdit := none, currentUrl := "/" } 3 "" (by decide)
  exact ⟨h.1, h.2 (by decide)⟩

/-- C8: when the trigger key is anything other than `"Enter"`, `addNewTodo`
leaves the whole component state unchanged — nothing is inserted — yet it
still persists, writing the route-selected list (`todos` on `/completed`,
`tempTodos` otherwise) to storage. -/
theorem addNewTodo_other_key_frame (s : HomeState) (now : Nat)
    (raw key : String) (h : key ≠ "Enter") :
    (addNewTodo s now raw key).1 = s
    ∧ (addNewTodo s now raw key).2
      = (if s.currentUrl = "/completed" then some s.todos
         else some s.tempTodos) := by
  constructor
  · simp [addNewTodo, h]
  · simp [addNewTodo, saveTodos, h]

/-- C8 witness: a concrete non-Enter keystroke on a concrete state. -/
theorem addNewTodo_other_key_frame_witness :
    (addNewTodo
        { todos := [{ id := 1, title := "a", completed := true }],
          tempTodos := [], editMode := false,
          todoSelectedToEdit := none, currentUrl := "/pending" }
        9 "x" "a").1
      = { todos := [{ id := 1, title := "a", completed := true }],
          tempTodos := [], editMode := false,
          todoSelectedToEdit := none, currentUrl := "/pending" }
    ∧ (addNewTodo
        { todos := [{ id := 1, title := "a", completed := true }],
          tempTodos := [], editMode := false,
          todoSelectedToEdit := none, currentUrl := "/pending" }
        9 "x" "a").2
      = some [] := by
  have h := addNewTodo_other_key_frame
    { todos := [{ id := 1, title := "a", completed := true }],
      tempTodos := [], editMode := false,
      todoSelectedToEdit := none, currentUrl := "/pending" }
    9 "x" "a" (by decide)
  exact ⟨h.1, by rw [h.2]; decide⟩

/-- C7: `pendingTodos` equals the number of entries of `todos` (allTodos)
whose `completed` flag is `false`, and it depends only on `todos`:
replacing `tempTodos`, `editMode`, the edit selection and the route leaves
its value unchanged.  It is a pure getter — `HomeState → Nat` — so it can
touch neither the state nor the store. -/
theorem pendingTodos_counts_allTodos (s : HomeState) :
    pendingTodos s = s.todos.countP (fun t => t.completed = false)
    ∧ ∀ temp em sel url,
        pendingTodos
          { s with tempTodos := temp, editMode := em,
                   todoSelectedToEdit := sel, currentUrl := url }
          = pendingTodos s := by
  constructor
  · have hp : (fun (t : Todo) => decide (t.completed = false))
        = fun t => !t.completed := by
      funext t; cases t.completed <;> rfl
    simp [pendingTodos, List.countP_eq_length_filter, hp]
  · intro temp em sel url; rfl

/-- C5: after `clearCompleted`, no completed entry remains in `todos` or in
`tempTodos`, whatever the route; in particular on route `/` with both lists
`[{1,"a",true},{2,"b",false}]` the call leaves
`todos = tempTodos = [{2,"b",false}]`. -/
theorem clearCompleted_no_completed_remain (s : HomeState) :
    ((clearCompleted s).1.todos.all (fun t => !t.completed) = true
      ∧ (clearCompleted s).1.tempTodos.all (fun t => !t.completed) = true)
    ∧ ((clearCompleted
        { todos := [{ id := 1, title := "a", completed := true },
                    { id := 2, title := "b", completed := false }],
          tempTodos := [{ id := 1, title := "a", completed := true },
                        { id := 2, title := "b", completed := false }],
          editMode := false, todoSelectedToEdit := none,
          currentUrl := "/" }).1.todos
        = [{ id := 2, title := "b", completed := false }]
      ∧ (clearCompleted
        { todos := [{ id := 1, title := "a", completed := true },
                    { id := 2, title := "b", completed := false }],
          tempTodos := [{ id := 1, title := "a", completed := true },
                        { id := 2, title := "b", completed := false }],
          editMode := false, todoSelectedToEdit := none,
          currentUrl := "/" }).1.tempTodos
        = [{ id := 2, title := "b", completed := false }]) := by
  refine ⟨?_, by decide, by decide⟩
  unfold clearCompleted
  split <;> constructor <;>
    simp [List.all_eq_true, List.mem_filter]

/-- Toggling the same id twice maps each entry back to itself. -/
theorem toggleCheck_flip_flip (target : Todo) (l : List Todo) :
    (l.map (fun item =>
        if target.id = item.id
        then { item with completed := !item.completed } else item)).map
      (fun item =>
        if target.id = item.id
        then { item with completed := !item.completed } else item) = l := by
  rw [List.map_map]
  have h : ((fun item =>
      if target.id = item.id
      then { item with completed := !item.completed } else item) ∘
      (fun item =>
        if target.id = item.id
        then { item with completed := !item.completed } else item))
      = fun (item : Todo) => item := by
    funext x
    by_cases hx : target.id = x.id
    · simp [Function.comp, hx, Bool.not_not]
    · simp [Function.comp, hx]
  rw [h, List.map_id']

/-- C3: for an id occurring in `tempTodos`, applying `toggleCheck` twice
with that id restores `tempTodos` exactly — the toggled entry's `completed`
flag returns to its original value — and after each single application
every entry whose id differs from the target is unchanged field-for-field
at its position. -/
theorem toggleCheck_twice_restores (s : HomeState) (target : Todo)
    (h : target.id ∈ s.tempTodos.map Todo.id) :
    (toggleCheck (toggleCheck s target).1 target).1.tempTodos = s.tempTodos
    ∧ ∀ (i : Nat) (t : Todo), s.tempTodos[i]? = some t → t.id ≠ target.id →
        ((toggleCheck s target).1.tempTodos[i]? = some t
          ∧ (toggleCheck (toggleCheck s target).1 target).1.tempTodos[i]?
            = some t) := by
  have hdouble :
      (toggleCheck (toggleCheck s target).1 target).1.tempTodos
        = s.tempTodos := by
    simp only [toggleCheck]
    exact toggleCheck_flip_flip target s.tempTodos
  refine ⟨hdouble, ?_⟩
  intro i t hit hne
  refine ⟨?_, by rw [hdouble]; exact hit⟩
  simp only [toggleCheck, List.getElem?_map, hit, Option.map_some']
  rw [if_neg (fun hc => hne hc.symm)]

/-- C3 witness: toggling id 1 twice in a two-element list restores the
list, and the entry with id 2 is untouched by the first application. -/
theorem toggleCheck_twice_restores_witness :
    (toggleCheck
      (toggleCheck
        { todos := [{ id := 1, title := "a", completed := false },
                    { id := 2, title := "b", completed := true }],
          tempTodos := [{ id := 1, title := "a", completed := false },
                        { id := 2, title := "b", completed := true }],
          editMode := false, todoSelectedToEdit := none, currentUrl := "/" }
        { id := 1, title := "a", completed := false }).1
      { id := 1, title := "a", completed := false }).1.tempTodos
      = [{ id := 1, title := "a", completed := false },
         { id := 2, title := "b", completed := true }]
    ∧ (toggleCheck
        { todos := [{ id := 1, title := "a", completed := false },
                    { id := 2, title := "b", completed := true }],
          tempTodos := [{ id := 1, title := "a", completed := false },
                        { id := 2, title := "b", completed := true }],
          editMode := false, todoSelectedToEdit := none, currentUrl := "/" }
        { id := 1, title := "a", completed := false }).1.tempTodos[1]?
      = some { id := 2, title := "b", completed := true } := by
  have h := toggleCheck_twice_restores
    { todos := [{ id := 1, title := "a", completed := false },
                { id := 2, title := "b", completed := true }],
      tempTodos := [{ id := 1, title := "a", completed := false },
                    { id := 2, title := "b", completed := true }],
      editMode := false, todoSelectedToEdit := none, currentUrl := "/" }
    { id := 1, title := "a", completed := false } (by decide)
  exact ⟨h.1,
    (h.2 1 { id := 2, title := "b", completed := true }
      (by decide) (by decide)).1⟩

/-- C9: on route `/completed`, `toggleCheck` rewrites only `tempTodos`;
`todos`, the edit state and the route are untouched, and since `saveTodos`
writes `todos` on that route, the value written to storage is the
pre-toggle `todos` — re-initialising from it reproduces the state built
from the un-toggled list, so the toggle does not survive a reload. -/
theorem toggleCheck_completed_route_lost (s : HomeState) (todo : Todo)
    (h : s.currentUrl = "/completed") :
    (toggleCheck s todo).1.todos = s.todos
    ∧ (toggleCheck s todo).1.editMode = s.editMode
    ∧ (toggleCheck s todo).1.todoSelectedToEdit = s.todoSelectedToEdit
    ∧ (toggleCheck s todo).1.currentUrl = s.currentUrl
    ∧ (toggleCheck s todo).2 = some s.todos
    ∧ ∀ url, ngOnInit url (toggleCheck s todo).2
        = ngOnInit url (some s.todos) := by
  refine ⟨rfl, rfl, rfl, rfl, ?_, ?_⟩
  · simp [toggleCheck, saveTodos, h]
  · intro url
    have hst : (toggleCheck s todo).2 = some s.todos := by
      simp [toggleCheck, saveTodos, h]
    rw [hst]

/-- C9 witness: on `/completed`, toggling the only visible todo flips it in
`tempTodos` but the stored value keeps it completed. -/
theorem toggleCheck_completed_route_lost_witness :
    (toggleCheck
        { todos := [{ id := 1, title := "a", completed := true }],
          tempTodos := [{ id := 1, title := "a", completed := true }],
          editMode := false, todoSelectedToEdit := none,
          currentUrl := "/completed" }
        { id := 1, title := "a", completed := true }).1.todos
      = [{ id := 1, title := "a", completed := true }]
    ∧ (toggleCheck
        { todos := [{ id := 1, title := "a", completed := true }],
          tempTodos := [{ id := 1, title := "a", completed := true }],
          editMode := false, todoSelectedToEdit := none,
          currentUrl := "/completed" }
        { id := 1, title := "a", completed := true }).2
      = some [{ id := 1, title := "a", completed := true }] := by
  have h := toggleCheck_completed_route_lost
    { todos := [{ id := 1, title := "a", completed := true }],
      tempTodos := [{ id := 1, title := "a", completed := true }],
      editMode := false, todoSelectedToEdit := none,
      currentUrl := "/completed" }
    { id := 1, title := "a", completed := true } (by decide)
  exact ⟨h.1, h.2.2.2.2.1⟩

/-- C2 counterexample: on route `/pending` with stored list
`[{1,"a",true}]`, the component comes up with `todos = [{1,"a",true}]` and
`tempTodos = []`.  Deleting the absent id 2 is then not a no-op: `todos`
collapses to `[]` and the stored value changes from `[{1,"a",true}]` to
`[]`. -/
theorem deleteTodo_absent_not_noop :
    ngOnInit "/pending" (some [{ id := 1, title := "a", completed := true }])
      = { todos := [{ id := 1, title := "a", completed := true }],
          tempTodos := [], editMode := false, todoSelectedToEdit := none,
          currentUrl := "/pending" }
    ∧ (∀ t, t ∈ ([] : List Todo) → ¬ t.id = 2)
    ∧ (deleteTodo
        { todos := [{ id := 1, title := "a", completed := true }],
          tempTodos := [], editMode := false, todoSelectedToEdit := none,
          currentUrl := "/pending" }
        { id := 2, title := "b", completed := false }).1.todos
      ≠ [{ id := 1, title := "a", completed := true }]
    ∧ (deleteTodo
        { todos := [{ id := 1, title := "a", completed := true }],
          tempTodos := [], editMode := false, todoSelectedToEdit := none,
          currentUrl := "/pending" }
        { id := 2, title := "b", completed := false }).2
      ≠ some [{ id := 1, title := "a", completed := true }] := by
  refine ⟨by decide, by simp, by decide, ?_⟩
  show (some ([] : List Todo)) ≠ some [{ id := 1, title := "a", completed := true }]
  decide

/-- C2 amended: deleting a target whose id occurs in no entry of
`tempTodos` raises no error and leaves `tempTodos`, `editMode`, the edit
selection and the route unchanged; but it still assigns
`todos := tempTodos` and writes `tempTodos` to storage, so the whole state
is unchanged only when `todos` already equals `tempTodos`. -/
theorem deleteTodo_absent_partial_noop (s : HomeState) (target : Todo)
    (h : ∀ t ∈ s.tempTodos, t.id ≠ target.id) :
    (deleteTodo s target).1.tempTodos = s.tempTodos
    ∧ (deleteTodo s target).1.editMode = s.editMode
    ∧ (deleteTodo s target).1.todoSelectedToEdit = s.todoSelectedToEdit
    ∧ (deleteTodo s target).1.currentUrl = s.currentUrl
    ∧ (deleteTodo s target).1.todos = s.tempTodos
    ∧ (deleteTodo s target).2 = some s.tempTodos
    ∧ (s.todos = s.tempTodos → (deleteTodo s target).1 = s) := by
  have hfilter :
      s.tempTodos.filter (fun item => item.id != target.id) = s.tempTodos := by
    rw [List.filter_eq_self]
    intro a ha
    simpa using h a ha
  refine ⟨?_, rfl, rfl, rfl, ?_, ?_, ?_⟩
  · simp [deleteTodo, hfilter]
  · simp [deleteTodo, hfilter]
  · simp only [deleteTodo, saveTodos, hfilter]
    split <;> rfl
  · intro heq
    cases s with
    | mk a b c d e =>
      have heq' : a = b := heq
      have hf : b.filter (fun item => item.id != target.id) = b := hfilter
      subst heq'
      simp [deleteTodo, hf]

/-- C2 amended witness: deleting the absent id 2 from a state whose two
lists agree changes nothing. -/
theorem deleteTodo_absent_partial_noop_witness :
    (deleteTodo
        { todos := [{ id := 1, title := "a", completed := false }],
          tempTodos := [{ id := 1, title := "a", completed := false }],
          editMode := false, todoSelectedToEdit := none, currentUrl := "/" }
        { id := 2, title := "b", completed := false }).1
      = { todos := [{ id := 1, title := "a", completed := false }],
          tempTodos := [{ id := 1, title := "a", completed := false }],
          editMode := false, todoSelectedToEdit := none, currentUrl := "/" }
    ∧ (deleteTodo
        { todos := [{ id := 1, title := "a", completed := false }],
          tempTodos := [{ id := 1, title := "a", completed := false }],
          editMode := false, todoSelectedToEdit := none, currentUrl := "/" }
        { id := 2, title := "b", completed := false }).2
      = some [{ id := 1, title := "a", completed := false }] := by
  have h := deleteTodo_absent_partial_noop
    { todos := [{ id := 1, title := "a", completed := false }],
      tempTodos := [{ id := 1, title := "a", completed := false }],
      editMode := false, todoSelectedToEdit := none, currentUrl := "/" }
    { id := 2, title := "b", completed := false } (by decide)
  exact ⟨h.2.2.2.2.2.2 rfl, h.2.2.2.2.2.1⟩

/-- C6: for a state whose `tempTodos` is the route filter of `todos`,
persisting with `saveTodos` and re-initialising a fresh component from the
written value on the same route reproduces `tempTodos` exactly. -/
theorem persist_reinit_roundtrip (s : HomeState)
    (h : s.tempTodos = (filterTodos s).tempTodos) :
    (ngOnInit s.currentUrl (saveTodos s)).tempTodos = s.tempTodos := by
  by_cases h1 : s.currentUrl = "/completed"
  · have hT : s.tempTodos = s.todos.filter (fun t => t.completed) := by
      rw [h]; simp [filterTodos, h1]
    simp [ngOnInit, saveTodos, filterTodos, h1, hT]
  · by_cases h2 : s.currentUrl = "/pending"
    · have hT : s.tempTodos = s.todos.filter (fun t => !t.completed) := by
        rw [h]; simp [filterTodos, h1, h2]
      simp [ngOnInit, saveTodos, filterTodos, h1, h2]
      rw [hT]
      simp [List.mem_filter]
    · have hT : s.tempTodos = s.todos := by
        rw [h]; simp [filterTodos, h1, h2]
      simp [ngOnInit, saveTodos, filterTodos, h1, h2, hT]

/-- C6 witness: the round trip on route `/pending` with canonical list
`[{1,"a",false},{2,"b",true}]` and its pending filter as the view. -/
theorem persist_reinit_roundtrip_witness :
    (ngOnInit "/pending"
        (saveTodos
          { todos := [{ id := 1, title := "a", completed := false },
                      { id := 2, title := "b", completed := true }],
            tempTodos := [{ id := 1, title := "a", completed := false }],
            editMode := false, todoSelectedToEdit := none,
            currentUrl := "/pending" })).tempTodos
      = [{ id := 1, title := "a", completed := false }] :=
  persist_reinit_roundtrip
    { todos := [{ id := 1, title := "a", completed := false },
                { id := 2, title := "b", completed := true }],
      tempTodos := [{ id := 1, title := "a", completed := false }],
      editMode := false, todoSelectedToEdit := none,
      currentUrl := "/pending" }
    (by decide)

/-- C1: in edit mode with the selected todo held in `tempTodos`, a commit
with trigger key `"Escape"` raises no error, turns `editMode` off, leaves
the stored value untouched (nothing is written), and the entry of
`tempTodos` carrying the selected id ends with title `jsTrim rawText` —
the cancel key does not revert the in-place title assignment. -/
theorem editTodo_escape_keeps_title (s : HomeState) (st : Store)
    (raw : String) (t : Todo)
    (hmode : s.editMode = true)
    (hsel : s.todoSelectedToEdit = some t)
    (hmem : t ∈ s.tempTodos) :
    ∃ s', editTodo s st raw "Escape" = some (s', st)
      ∧ s'.editMode = false
      ∧ (∃ x ∈ s'.tempTodos, x.id = t.id ∧ x.title = jsTrim raw)
      ∧ ∀ x ∈ s'.tempTodos, x.id = t.id → x.title = jsTrim raw := by
  refine ⟨{ s with
      todoSelectedToEdit := some { t with title := jsTrim raw },
      tempTodos := s.tempTodos.map (fun x =>
        if x.id = t.id then { x with title := jsTrim raw } else x),
      editMode := false }, ?_, rfl, ?_, ?_⟩
  · simp [editTodo, hsel]
  · refine ⟨{ t with title := jsTrim raw }, ?_, rfl, rfl⟩
    have hm := List.mem_map_of_mem
      (fun x => if x.id = t.id then { x with title := jsTrim raw } else x) hmem
    simpa using hm
  · intro x hx hid
    obtain ⟨y, hy, rfl⟩ := List.mem_map.mp hx
    by_cases hyid : y.id = t.id
    · rw [if_pos hyid]
    · rw [if_neg hyid] at hid ⊢
      exact absurd hid hyid

/-- C1 witness: the scenario select `{1,"a",false}` then Escape-commit
`"z"` — edit mode ends false and the visible entry's title is `"z"`, with
the store (here `none`) untouched. -/
theorem editTodo_escape_keeps_title_witness :
    ∃ s', editTodo
        (selectTodoToEdit
          { todos := [{ id := 1, title := "a", completed := false }],
            tempTodos := [{ id := 1, title := "a", completed := false }],
            editMode := false, todoSelectedToEdit := none,
            currentUrl := "/" }
          { id := 1, title := "a", completed := false })
        none "z" "Escape" = some (s', none)
      ∧ s'.editMode = false
      ∧ ∃ x ∈ s'.tempTodos, x.id = 1 ∧ x.title = "z" := by
  obtain ⟨s', h1, h2, h3, h4⟩ := editTodo_escape_keeps_title
    (selectTodoToEdit
      { todos := [{ id := 1, title := "a", completed := false }],
        tempTodos := [{ id := 1, title := "a", completed := false }],
        editMode := false, todoSelectedToEdit := none, currentUrl := "/" }
      { id := 1, title := "a", completed := false })
    none "z" { id := 1, title := "a", completed := false }
    rfl rfl (by decide)
  refine ⟨s', h1, h2, ?_⟩
  obtain ⟨x, hx, hid, hti⟩ := h3
  exact ⟨x, hx, hid, by rw [hti]; decide⟩
